import Mathlib

/-!
Verification of the error taxonomy of the lending program
(src/programs/lending/src/error.rs).

The source declares a single Anchor `#[error_code]` enumeration with four
variants, each carrying a `#[msg("...")]` attribute.  We embed the
enumeration as a Lean inductive type, the `#[msg]` attributes as a message
function, and the numeric discriminants assigned by the Anchor
`#[error_code]` macro (sequential from the offset 6000) as a code
function.
-/

/-- Embedding of `pub enum ErrorCode` from
src/programs/lending/src/error.rs, variants in declaration order. -/
inductive ErrorCode where
  | InsufficientFunds
  | OverBorrowableAmount
  | OverRepay
  | HealthFactorAboveOne
deriving DecidableEq, Fintype, Repr

namespace ErrorCode

/-- The message string attached to each variant by its `#[msg("...")]`
attribute, verbatim from the source (including the misspelling
"Resuest"). -/
def msg : ErrorCode → String
  | .InsufficientFunds => "Insufficient funds for this operation."
  | .OverBorrowableAmount => "Resuest Exceeds Over borrowable amount."
  | .OverRepay => "Over repay amount."
  | .HealthFactorAboveOne => "Health factor is above 1.0, liquidation not required."

/-- The identifier of each variant, as spelled in the source. -/
def name : ErrorCode → String
  | .InsufficientFunds => "InsufficientFunds"
  | .OverBorrowableAmount => "OverBorrowableAmount"
  | .OverRepay => "OverRepay"
  | .HealthFactorAboveOne => "HealthFactorAboveOne"

/-- Declaration index of each variant (0-based position in the source). -/
def index : ErrorCode → Nat
  | .InsufficientFunds => 0
  | .OverBorrowableAmount => 1
  | .OverRepay => 2
  | .HealthFactorAboveOne => 3

/-- Numeric error code of each variant as assigned by the Anchor
`#[error_code]` attribute macro: custom error codes are numbered
sequentially in declaration order starting at the framework offset 6000. -/
def code (e : ErrorCode) : Nat := 6000 + e.index

/-- The list of all variants in declaration order. -/
def all : List ErrorCode :=
  [.InsufficientFunds, .OverBorrowableAmount, .OverRepay, .HealthFactorAboveOne]

/-- Fetching the message, modelled as a run against an explicit world
state (the Rust accessor is a pure `match`, so the state passes through
untouched). -/
def fetchMsg (e : ErrorCode) (world : Nat) : String × Nat := (e.msg, world)

/-- Constructing (selecting) a variant from a tag index, modelled with an
explicit world state and a failure channel: the Rust construction is a
bare unit-variant literal, so it never fails and never touches state. -/
def construct (i : Fin 4) (world : Nat) : Option ErrorCode × Nat :=
  (some (all.get (Fin.cast (by decide) i)), world)

end ErrorCode

/-- Modelled from the spec: the borrow-failure classifier of the host
lending program is not part of the supplied source; per the spec it is a stub
classifier over this taxonomy that, when the requested borrow amount
exceeds the permitted borrowable amount, selects `OverBorrowableAmount`. -/
def classifyBorrowFailure (requested permitted : Nat) : Option ErrorCode :=
  if permitted < requested then some ErrorCode.OverBorrowableAmount else none

/-- Extension of the enumeration by a fifth appended tag, written to the
words of the spec (a new tag appended after the existing four) for the
backward-compatibility refinement claim. -/
inductive ErrorCodeExt where
  | InsufficientFunds
  | OverBorrowableAmount
  | OverRepay
  | HealthFactorAboveOne
  | FifthTag
deriving DecidableEq, Fintype, Repr

namespace ErrorCodeExt

/-- Messages of the extended enumeration: unchanged on the original four
variants, with a new message for the appended tag. -/
def msg : ErrorCodeExt → String
  | .InsufficientFunds => "Insufficient funds for this operation."
  | .OverBorrowableAmount => "Resuest Exceeds Over borrowable amount."
  | .OverRepay => "Over repay amount."
  | .HealthFactorAboveOne => "Health factor is above 1.0, liquidation not required."
  | .FifthTag => "A newly appended failure condition."

/-- Identifiers of the extended enumeration. -/
def name : ErrorCodeExt → String
  | .InsufficientFunds => "InsufficientFunds"
  | .OverBorrowableAmount => "OverBorrowableAmount"
  | .OverRepay => "OverRepay"
  | .HealthFactorAboveOne => "HealthFactorAboveOne"
  | .FifthTag => "FifthTag"

/-- Declaration index in the extended enumeration. -/
def index : ErrorCodeExt → Nat
  | .InsufficientFunds => 0
  | .OverBorrowableAmount => 1
  | .OverRepay => 2
  | .HealthFactorAboveOne => 3
  | .FifthTag => 4

/-- Numeric error code in the extended enumeration (same Anchor
numbering). -/
def code (e : ErrorCodeExt) : Nat := 6000 + e.index

end ErrorCodeExt

/-- The embedding of an original variant into the extended enumeration:
appending a tag leaves each existing variant in place. -/
def embedExt : ErrorCode → ErrorCodeExt
  | .InsufficientFunds => .InsufficientFunds
  | .OverBorrowableAmount => .OverBorrowableAmount
  | .OverRepay => .OverRepay
  | .HealthFactorAboveOne => .HealthFactorAboveOne

/-- The embedding leaves the four original variants pairwise distinct in
the extended type. -/
theorem embedExt_injective : Function.Injective embedExt := by decide

/-- C1: the ErrorCode enumeration contains exactly four variants, and
their identifiers are exactly InsufficientFunds, OverBorrowableAmount,
OverRepay and HealthFactorAboveOne, no more and no fewer. -/
theorem errorCode_exactly_four_variants :
    Fintype.card ErrorCode = 4 ∧
    (∀ e : ErrorCode, e ∈ ErrorCode.all) ∧
    ErrorCode.all.Nodup ∧
    ErrorCode.all.map ErrorCode.name =
      ["InsufficientFunds", "OverBorrowableAmount", "OverRepay",
       "HealthFactorAboveOne"] := by
  refine ⟨rfl, by decide, by decide, rfl⟩

/-- C2: the identifier and message assignments are injective on
ErrorCode: distinct variants have distinct identifiers and distinct
message strings. -/
theorem errorCode_name_msg_injective (a b : ErrorCode) (h : a ≠ b) :
    ErrorCode.name a ≠ ErrorCode.name b ∧
    ErrorCode.msg a ≠ ErrorCode.msg b := by
  revert h
  revert a b
  decide

/-- Witness for C2 at the concrete pair InsufficientFunds, OverRepay. -/
theorem errorCode_name_msg_injective_witness :
    ErrorCode.name ErrorCode.InsufficientFunds ≠
      ErrorCode.name ErrorCode.OverRepay ∧
    ErrorCode.msg ErrorCode.InsufficientFunds ≠
      ErrorCode.msg ErrorCode.OverRepay :=
  errorCode_name_msg_injective ErrorCode.InsufficientFunds
    ErrorCode.OverRepay (by decide)

/-- C3: every variant carries a non-empty message string. -/
theorem errorCode_msg_nonempty :
    ∀ e : ErrorCode, ErrorCode.msg e ≠ "" := by decide

/-- C4: fetching the message is deterministic and stateless: two runs of
the fetch on the same variant, against arbitrary world states, return the
same string, and neither run changes the world state. -/
theorem errorCode_fetchMsg_deterministic (e : ErrorCode) (w w2 : Nat) :
    (ErrorCode.fetchMsg e w).1 = (ErrorCode.fetchMsg e w2).1 ∧
    (ErrorCode.fetchMsg e w).2 = w ∧
    (ErrorCode.fetchMsg e w2).2 = w2 :=
  ⟨rfl, rfl, rfl⟩

/-- C5: construction of an ErrorCode value is pure and total: for every
tag index and every world state, construction succeeds (no error branch,
the Option result is always some) and leaves the world state unchanged. -/
theorem errorCode_construct_pure_total (i : Fin 4) (w : Nat) :
    (ErrorCode.construct i w).1.isSome = true ∧
    (ErrorCode.construct i w).2 = w :=
  ⟨rfl, rfl⟩

/-- C6: the set of tags is closed: every value of the ErrorCode type is
one of the four declared variants, so any operation producing an
ErrorCode merely selects one of the four. -/
theorem errorCode_closed :
    ∀ e : ErrorCode,
      e = ErrorCode.InsufficientFunds ∨
      e = ErrorCode.OverBorrowableAmount ∨
      e = ErrorCode.OverRepay ∨
      e = ErrorCode.HealthFactorAboveOne := by decide

/-- C7: backward compatibility under extension: embedding each of the
four original variants into the enumeration extended by a fifth appended
tag preserves its identifier, its message string and its numeric code,
and keeps distinct variants distinct. -/
theorem errorCode_ext_backward_compatible :
    (∀ e : ErrorCode,
      ErrorCodeExt.name (embedExt e) = ErrorCode.name e ∧
      ErrorCodeExt.msg (embedExt e) = ErrorCode.msg e ∧
      ErrorCodeExt.code (embedExt e) = ErrorCode.code e) ∧
    (∀ a b : ErrorCode, embedExt a = embedExt b → a = b) := by
  exact ⟨by decide, by decide⟩

/-- C8: classifying a failed borrow attempt whose requested amount
exceeds the permitted borrowable amount selects OverBorrowableAmount and
never InsufficientFunds or any other tag. -/
theorem classifyBorrowFailure_over_borrowable
    (requested permitted : Nat) (h : permitted < requested) :
    classifyBorrowFailure requested permitted =
      some ErrorCode.OverBorrowableAmount ∧
    ∀ e : ErrorCode,
      classifyBorrowFailure requested permitted = some e →
      e = ErrorCode.OverBorrowableAmount := by
  constructor
  · simp [classifyBorrowFailure, h]
  · intro e he
    simp [classifyBorrowFailure, h] at he
    exact he.symm

/-- Witness for C8 at requested = 10, permitted = 5. -/
theorem classifyBorrowFailure_over_borrowable_witness :
    classifyBorrowFailure 10 5 = some ErrorCode.OverBorrowableAmount ∧
    ∀ e : ErrorCode,
      classifyBorrowFailure 10 5 = some e →
      e = ErrorCode.OverBorrowableAmount :=
  classifyBorrowFailure_over_borrowable 10 5 (by decide)

/-- C9: the numeric code of each variant is 6000 plus its declaration
index, codes are injective, and codes are strictly increasing in
declaration order. -/
theorem errorCode_numeric_codes :
    (∀ e : ErrorCode, ErrorCode.code e = 6000 + ErrorCode.index e) ∧
    ErrorCode.all.map ErrorCode.code = [6000, 6001, 6002, 6003] ∧
    (∀ a b : ErrorCode, ErrorCode.code a = ErrorCode.code b → a = b) ∧
    (∀ a b : ErrorCode,
      ErrorCode.index a < ErrorCode.index b →
      ErrorCode.code a < ErrorCode.code b) := by
  refine ⟨fun e => rfl, rfl, by decide, by decide⟩

/-- C10: the message function equals the reference table, verbatim,
including the misspelling "Resuest". -/
theorem errorCode_msg_table :
    ErrorCode.msg ErrorCode.InsufficientFunds =
      "Insufficient funds for this operation." ∧
    ErrorCode.msg ErrorCode.OverBorrowableAmount =
      "Resuest Exceeds Over borrowable amount." ∧
    ErrorCode.msg ErrorCode.OverRepay = "Over repay amount." ∧
    ErrorCode.msg ErrorCode.HealthFactorAboveOne =
      "Health factor is above 1.0, liquidation not required." :=
  ⟨rfl, rfl, rfl, rfl⟩
